import Mathlib

/-!
Verification of the YellowTea backend order/payment core.

The definitions below are a shallow embedding of the relevant JavaScript
controllers: `payment.controller.js` (createRazorpayOrder, verifyPayment,
processRefund), `webhook.controller.js` (handleRazorpayWebhook and its event
handlers), `order.controller.js` (updateOrderStatus, cancelOrder,
processRefund, markCodOrderAsPaid) and `razorpay.config.js`
(formatAmountForRazorpay / formatAmountFromRazorpay).

The MongoDB store is modelled as a list of orders; `findOne`/`findById` are
list searches and `order.save()` replaces the order with the same `_id`.
Timestamps are naturals (`Date.now()` is passed in as `now`), money amounts
are exact rationals, HMAC-SHA256 and JSON serialization are abstract
function parameters, and the Razorpay client calls are function parameters
returning `Option` (with `none` standing for a thrown/failed upstream call).
Each controller returns the new store, the list of user notifications it
dispatched, and its HTTP response (`Except`); an error response leaves the
store untouched and dispatches nothing, matching the early `return next(...)`
paths of the source, which occur before any `save()`.

Mongoose runs the order schema in its default strict mode, so a controller
assignment to a key that is not a schema path of `order.model.js` is
silently dropped on set/save and never persisted.  The embedding models the
persisted document: the `Order`, `PaymentResult` and `RefundDetails`
structures carry exactly the schema paths, and each controller definition
notes the source assignments that strict mode strips
(`paymentResult.error_code`/`error_description` in the webhook
`payment.failed` handler, `paymentResult.method` in `markCodOrderAsPaid`,
`cancellationReason`/`cancelledAt` in `cancelOrder`, and
`refundDetails.method`/`transactionId`/`notes` in the admin refund).
-/

/-- Order lifecycle status (`order.model.js` `status` enum). -/
inductive OrderStatus
  | pending
  | processing
  | shipped
  | delivered
  | cancelled
  | refunded
  deriving DecidableEq, Repr

/-- The wire string of a status, as stored by Mongoose and interpolated
into notification types (the `status` enum strings of `order.model.js`). -/
def statusName : OrderStatus → String
  | OrderStatus.pending => "pending"
  | OrderStatus.processing => "processing"
  | OrderStatus.shipped => "shipped"
  | OrderStatus.delivered => "delivered"
  | OrderStatus.cancelled => "cancelled"
  | OrderStatus.refunded => "refunded"

/-- Refund status (`order.model.js` `refundStatus` enum). -/
inductive RefundStatus
  | pending
  | processing
  | completed
  | failed
  deriving DecidableEq, Repr

/-- The `paymentResult` sub-document of an order: exactly the paths
declared by `order.model.js` (lines 48–55).  The webhook `payment.failed`
handler also assigns `error_code`/`error_description` and
`markCodOrderAsPaid` assigns `method`, but those are not schema paths and
Mongoose's strict mode strips them on save, so they never persist and are
not modelled. -/
structure PaymentResult where
  id : String
  status : String
  update_time : Nat
  email_address : String
  razorpay_order_id : Option String := none
  razorpay_payment_id : Option String := none
  deriving DecidableEq, Repr

/-- The `refundDetails` sub-document: exactly the paths declared by
`order.model.js` (`amount/id/status/processedAt/processedBy/reason/
razorpayRefundId`).  The admin refund also assigns
`method`/`transactionId`/`notes`, which are not schema paths and are
stripped by strict mode, so they are not modelled. -/
structure RefundDetails where
  amount : ℚ
  id : Option String := none
  status : Option String := none
  processedAt : Nat
  processedBy : Option String := none
  reason : Option String := none
  razorpayRefundId : Option String := none
  deriving DecidableEq, Repr

/-- An order document: the schema paths of `order.model.js` that the
payment / lifecycle controllers read or write.  `cancelOrder` also assigns
`cancellationReason` and `cancelledAt`, which are not schema paths and are
stripped by strict mode, so they are not modelled. -/
structure Order where
  _id : String
  user : String
  orderNumber : String
  paymentMethod : String
  paymentResult : Option PaymentResult := none
  totalPrice : ℚ
  isPaid : Bool := false
  paidAt : Option Nat := none
  deliveredAt : Option Nat := none
  status : OrderStatus := OrderStatus.pending
  razorpayOrderId : Option String := none
  refundStatus : Option RefundStatus := none
  refundDetails : Option RefundDetails := none
  deriving DecidableEq, Repr

/-- A user notification pushed by a controller (`sendUserNotification` or a
direct `User.findByIdAndUpdate` push); the dispatcher itself is an external
collaborator, so only the target user, the notification type and the order
reference are recorded. -/
structure Notification where
  user : String
  ntype : String
  order : Option String := none
  message : Option String := none
  deriving DecidableEq, Repr

/-- An error response: `api s m` is `next(new ApiError(s, m))`; `upstream`
is a non-`ApiError` exception propagated by a `catch` block. -/
inductive Err
  | api (status : Nat) (msg : String)
  | upstream
  deriving DecidableEq, Repr

/-- Result of one controller call: the updated store, the notifications it
dispatched, and the response carrying the saved order on success. -/
structure OpResult where
  db : List Order
  notifications : List Notification
  response : Except Err Order
  deriving Repr

/-- Result of the webhook endpoint (its success response carries no order). -/
structure WebhookResult where
  db : List Order
  notifications : List Notification
  response : Except Err Unit
  deriving Repr

/-- The authenticated requester (`req.user`). -/
structure ReqUser where
  id : String
  email : String
  role : String
  deriving DecidableEq, Repr

/-- A payment entity as returned by `razorpay.payments.fetch` or carried in
a webhook `payment.*` payload. -/
structure RzpPayment where
  id : String
  status : String
  order_id : String
  amount : ℤ
  currency : String := "INR"
  email : String := ""
  error_code : Option String := none
  error_description : Option String := none
  deriving DecidableEq, Repr

/-- A refund entity carried in a webhook `refund.processed` payload. -/
structure RzpRefundEntity where
  id : String
  amount : ℤ
  status : String
  payment_id : String
  notesReason : Option String := none
  deriving DecidableEq, Repr

/-- A refund object returned by `razorpay.payments.refund`. -/
structure RzpRefund where
  id : String
  amount : ℤ
  status : String
  deriving DecidableEq, Repr

/-- An order entity carried in a webhook `order.paid` payload. -/
structure RzpOrderEntity where
  id : String
  deriving DecidableEq, Repr

/-- A webhook event envelope: `event` is the event name, the three optional
fields model `payload.payment.entity`, `payload.refund.entity` and
`payload.order.entity` (absent field = accessing it would throw). -/
structure WebhookEvent where
  event : String
  payment : Option RzpPayment := none
  refund : Option RzpRefundEntity := none
  orderEntity : Option RzpOrderEntity := none

/-- The body of the `POST /payments/verify` request. -/
structure VerifyBody where
  razorpay_order_id : Option String := none
  razorpay_payment_id : Option String := none
  razorpay_signature : Option String := none
  orderId : Option String := none
  deriving DecidableEq, Repr

/-- JavaScript truthiness of an optional string: `undefined` and `""` are
falsy. -/
def truthy : Option String → Bool
  | none => false
  | some s => !(s == "")

/-- JavaScript truthiness of an optional number: `undefined` and `0` are
falsy. -/
def truthyQ : Option ℚ → Bool
  | none => false
  | some q => !(q == 0)

/-- JavaScript `x || d` on an optional string. -/
def orDefault (o : Option String) (d : String) : String :=
  if truthy o then o.getD "" else d

/-- `Model.findOne(pred)` / `Model.findById`. -/
def findOne (p : Order → Bool) (db : List Order) : Option Order :=
  db.find? p

/-- `order.save()`: persist `o` over the stored order with the same `_id`. -/
def saveOrder (o : Order) (db : List Order) : List Order :=
  db.map (fun x => if x._id == o._id then o else x)

/-- An error response: store unchanged, nothing dispatched. -/
def opErr (db : List Order) (status : Nat) (msg : String) : OpResult :=
  ⟨db, [], Except.error (Err.api status msg)⟩

/-- `Math.round` on an exact rational: round half away from zero upward,
exactly JavaScript's `Math.round` (floor of `x + 1/2`). -/
def mathRound (q : ℚ) : ℤ :=
  ⌊q + 1 / 2⌋

/-- `razorpay.config.js`: convert a major-unit (rupee) amount to integer
paise: `Math.round(amount * 100)`. -/
def formatAmountForRazorpay (amount : ℚ) : ℤ :=
  mathRound (amount * 100)

/-- `razorpay.config.js`: convert integer paise back to rupees:
`amount / 100`. -/
def formatAmountFromRazorpay (amount : ℤ) : ℚ :=
  (amount : ℚ) / 100

namespace PaymentController

/-- `payment.controller.js` `createRazorpayOrder`.  `ordersCreate` models
`razorpay.orders.create`, given the paise amount and the receipt
(order number) and returning the new Razorpay order id; `none` models a
thrown gateway error (propagated by the outer `catch`). -/
def createRazorpayOrder (ordersCreate : ℤ → String → Option String)
    (u : ReqUser) (orderId : Option String) (db : List Order) : OpResult :=
  if !truthy orderId then opErr db 400 "Order ID is required"
  else
    match findOne (fun o => o._id == orderId.getD "") db with
    | none => opErr db 404 "Order not found"
    | some order =>
      if order.user != u.id then
        opErr db 403 "Not authorized to access this order"
      else if order.isPaid then
        opErr db 400 "Order is already paid"
      else if order.status == OrderStatus.cancelled then
        opErr db 400 "Cannot process payment for cancelled order"
      else
        match ordersCreate (formatAmountForRazorpay order.totalPrice) order.orderNumber with
        | none => ⟨db, [], Except.error Err.upstream⟩
        | some rzpId =>
          let updated := { order with razorpayOrderId := some rzpId }
          ⟨saveOrder updated db, [], Except.ok updated⟩

/-- The order update applied by `verifyPayment` once the fetched payment is
`captured` (lines 141–152 of the controller): note `status` is assigned
`'processing'` unconditionally. -/
def verifySuccessUpdate (u : ReqUser) (body : VerifyBody) (pid : String)
    (payment : RzpPayment) (order : Order) (now : Nat) : Order :=
  { order with
    isPaid := true
    paidAt := some now
    paymentMethod := "razorpay"
    paymentResult := some
      { id := pid
        status := "captured"
        update_time := now
        email_address := u.email
        razorpay_order_id :=
          some (if truthy body.razorpay_order_id then body.razorpay_order_id.getD ""
                else payment.order_id)
        razorpay_payment_id := some pid }
    status := OrderStatus.processing }

/-- `payment.controller.js` `verifyPayment`.  `hmac` models
`crypto.createHmac('sha256', key).update(msg).digest('hex')` (key first,
message second); `paymentsFetch` models `razorpay.payments.fetch`, with
`none` for a thrown fetch error. -/
def verifyPayment (hmac : String → String → String) (keySecret : String)
    (paymentsFetch : String → Option RzpPayment) (u : ReqUser)
    (body : VerifyBody) (db : List Order) (now : Nat) : OpResult :=
  if !truthy body.razorpay_payment_id then
    opErr db 400 "Missing razorpay_payment_id"
  else
    let pid := body.razorpay_payment_id.getD ""
    let actualOrderId : Option String :=
      if truthy body.orderId then body.orderId
      else if truthy body.razorpay_order_id then
        (findOne (fun o => o.razorpayOrderId == body.razorpay_order_id) db).map Order._id
      else none
    if !truthy actualOrderId then
      opErr db 400 "Order ID not found. Please provide orderId or valid razorpay_order_id"
    else
      match findOne (fun o => o._id == actualOrderId.getD "") db with
      | none => opErr db 404 "Order not found"
      | some order =>
        if order.user != u.id then
          opErr db 403 "Not authorized to verify this payment"
        else if truthy body.razorpay_order_id && truthy body.razorpay_signature
            && !(hmac keySecret (body.razorpay_order_id.getD "" ++ "|" ++ pid)
                  == body.razorpay_signature.getD "") then
          opErr db 400 "Invalid payment signature"
        else
          match paymentsFetch pid with
          | none => opErr db 400 "Failed to verify payment with Razorpay"
          | some payment =>
            if payment.status != "captured" then
              opErr db 400 "Payment not captured"
            else
              let updated := verifySuccessUpdate u body pid payment order now
              ⟨saveOrder updated db,
               [{ user := order.user, ntype := "payment_successful", order := some order._id }],
               Except.ok updated⟩

/-- `payment.controller.js` `processRefund` (the Razorpay-backed refund).
`paymentsRefund` models `razorpay.payments.refund`, given the payment id
and the paise amount; `none` models a thrown gateway error. -/
def processRefund (paymentsRefund : String → ℤ → Option RzpRefund)
    (u : ReqUser) (orderId : Option String) (refundAmount : Option ℚ)
    (reason : Option String) (db : List Order) (now : Nat) : OpResult :=
  if !truthy orderId then opErr db 400 "Order ID is required"
  else
    match findOne (fun o => o._id == orderId.getD "") db with
    | none => opErr db 404 "Order not found"
    | some order =>
      if !order.isPaid then
        opErr db 400 "Order is not paid"
      else if !truthy (order.paymentResult.bind PaymentResult.razorpay_payment_id) then
        opErr db 400 "Order does not have Razorpay payment"
      else
        let pid := (order.paymentResult.bind PaymentResult.razorpay_payment_id).getD ""
        let refundAmountInPaise :=
          if truthyQ refundAmount then formatAmountForRazorpay (refundAmount.getD 0)
          else formatAmountForRazorpay order.totalPrice
        match paymentsRefund pid refundAmountInPaise with
        | none => ⟨db, [], Except.error Err.upstream⟩
        | some refund =>
          let updated := { order with
            refundStatus := some RefundStatus.completed
            refundDetails := some
              { amount := formatAmountFromRazorpay refund.amount
                id := some refund.id
                status := some refund.status
                processedAt := now
                processedBy := some u.id
                reason := some (orDefault reason "Customer request")
                razorpayRefundId := some refund.id } }
          ⟨saveOrder updated db,
           [{ user := order.user, ntype := "refund_processed", order := some order._id }],
           Except.ok updated⟩

end PaymentController

namespace WebhookController

/-- The order update applied by the webhook `payment.captured` handler when
the order is not yet paid (lines 84–95 of `webhook.controller.js`). -/
def paymentCapturedUpdate (payment : RzpPayment) (order : Order) (now : Nat) : Order :=
  { order with
    isPaid := true
    paidAt := some now
    paymentMethod := "razorpay"
    paymentResult := some
      { id := payment.id
        status := payment.status
        update_time := now
        email_address := payment.email
        razorpay_order_id := some payment.order_id
        razorpay_payment_id := some payment.id }
    status := OrderStatus.processing }

/-- `webhook.controller.js` `handlePaymentCaptured`: resolve the order by
its bound Razorpay order id; update only when not already paid.  After the
save, the source calls `sendUserNotification`, but that symbol is never
imported by this module, so the call throws a `ReferenceError` that the
handler's own `catch` swallows after the save — no notification is ever
dispatched on this path.  All its errors are caught and logged, so it
returns no response. -/
def handlePaymentCaptured (payment : RzpPayment) (db : List Order) (now : Nat) :
    List Order × List Notification :=
  match findOne (fun o => o.razorpayOrderId == some payment.order_id) db with
  | none => (db, [])
  | some order =>
    if !order.isPaid then
      let updated := paymentCapturedUpdate payment order now
      (saveOrder updated db, [])
    else (db, [])

/-- The order update persisted by the webhook `payment.failed` handler
(lines 126–136 of `webhook.controller.js`): `status` becomes `cancelled`
and `paymentResult` is overwritten; `isPaid`/`paidAt` are not assigned.
The source also assigns `error_code := payment.error_code` and
`error_description := payment.error_description` into the same object, but
those are not paths of the strict `paymentResult` schema and Mongoose
strips them on save, so the persisted document records no failure reason
beyond the raw gateway `status` string. -/
def paymentFailedUpdate (payment : RzpPayment) (order : Order) (now : Nat) : Order :=
  { order with
    status := OrderStatus.cancelled
    paymentResult := some
      { id := payment.id
        status := payment.status
        update_time := now
        email_address := payment.email
        razorpay_order_id := some payment.order_id
        razorpay_payment_id := some payment.id } }

/-- `webhook.controller.js` `handlePaymentFailed`. -/
def handlePaymentFailed (payment : RzpPayment) (db : List Order) (now : Nat) :
    List Order × List Notification :=
  match findOne (fun o => o.razorpayOrderId == some payment.order_id) db with
  | none => (db, [])
  | some order =>
    let updated := paymentFailedUpdate payment order now
    (saveOrder updated db,
     [{ user := order.user, ntype := "payment_failed", order := some order._id,
        message := some ("Payment for order " ++ order.orderNumber
                          ++ " failed. Please try again.") }])

/-- The order update applied by the webhook `refund.processed` handler. -/
def refundProcessedUpdate (refund : RzpRefundEntity) (order : Order) (now : Nat) : Order :=
  { order with
    refundStatus := some RefundStatus.completed
    refundDetails := some
      { amount := (refund.amount : ℚ) / 100
        id := some refund.id
        status := some refund.status
        processedAt := now
        reason := some (orDefault refund.notesReason "Customer request")
        razorpayRefundId := some refund.id } }

/-- `webhook.controller.js` `handleRefundProcessed`: resolve the order by
the payment id stored in `paymentResult`.  The source's notification
message additionally interpolates the rupee amount
(` Amount: ₹${refund.amount / 100}`); JavaScript number-to-string rendering
is not modelled, so the recorded message carries the prefix only. -/
def handleRefundProcessed (refund : RzpRefundEntity) (db : List Order) (now : Nat) :
    List Order × List Notification :=
  match findOne (fun o =>
      (o.paymentResult.bind PaymentResult.razorpay_payment_id) == some refund.payment_id) db with
  | none => (db, [])
  | some order =>
    let updated := refundProcessedUpdate refund order now
    (saveOrder updated db,
     [{ user := order.user, ntype := "refund_processed", order := some order._id,
        message := some ("Refund for order " ++ order.orderNumber
                          ++ " has been processed.") }])

/-- `webhook.controller.js` `handleOrderPaid`: a lighter confirmation that
sets only `isPaid`, `paidAt` and `status` when not already paid, and sends
no notification. -/
def handleOrderPaid (orderEntity : RzpOrderEntity) (db : List Order) (now : Nat) :
    List Order × List Notification :=
  match findOne (fun o => o.razorpayOrderId == some orderEntity.id) db with
  | none => (db, [])
  | some order =>
    if !order.isPaid then
      let updated := { order with
        isPaid := true
        paidAt := some now
        status := OrderStatus.processing }
      (saveOrder updated db, [])
    else (db, [])

/-- `webhook.controller.js` `handleRazorpayWebhook`.  `hmac` models
`crypto.createHmac('sha256', secret).update(msg).digest('hex')` and
`stringify` models `JSON.stringify` on the parsed request body; the
signature header is compared against `hmac secret (stringify event)` before
any event dispatch.  A `payload` access on a missing entity throws and is
caught by the outer `catch` (`Err.upstream`). -/
def handleRazorpayWebhook (hmac : String → String → String)
    (stringify : WebhookEvent → String) (webhookSecret : Option String)
    (signature : Option String) (event : WebhookEvent) (db : List Order)
    (now : Nat) : WebhookResult :=
  if !truthy webhookSecret then
    ⟨db, [], Except.error (Err.api 500 "Webhook secret not configured")⟩
  else if !truthy signature then
    ⟨db, [], Except.error (Err.api 400 "Missing webhook signature")⟩
  else if !(signature.getD "" == hmac (webhookSecret.getD "") (stringify event)) then
    ⟨db, [], Except.error (Err.api 400 "Invalid webhook signature")⟩
  else if event.event == "payment.captured" then
    match event.payment with
    | none => ⟨db, [], Except.error Err.upstream⟩
    | some p =>
      let r := handlePaymentCaptured p db now
      ⟨r.1, r.2, Except.ok ()⟩
  else if event.event == "payment.failed" then
    match event.payment with
    | none => ⟨db, [], Except.error Err.upstream⟩
    | some p =>
      let r := handlePaymentFailed p db now
      ⟨r.1, r.2, Except.ok ()⟩
  else if event.event == "refund.processed" then
    match event.refund with
    | none => ⟨db, [], Except.error Err.upstream⟩
    | some rf =>
      let r := handleRefundProcessed rf db now
      ⟨r.1, r.2, Except.ok ()⟩
  else if event.event == "order.paid" then
    match event.orderEntity with
    | none => ⟨db, [], Except.error Err.upstream⟩
    | some oe =>
      let r := handleOrderPaid oe db now
      ⟨r.1, r.2, Except.ok ()⟩
  else
    ⟨db, [], Except.ok ()⟩

end WebhookController

namespace OrderController

/-- The status values accepted by `updateOrderStatus` (`validStatuses`). -/
def validStatuses : List OrderStatus :=
  [OrderStatus.processing, OrderStatus.shipped, OrderStatus.delivered,
   OrderStatus.cancelled]

/-- `order.controller.js` `updateOrderStatus`: set the requested status
unconditionally (no check of the current status), stamping `deliveredAt`
for `delivered` and opening a pending refund when cancelling a paid order. -/
def updateOrderStatus (orderId : String) (status : Option OrderStatus)
    (db : List Order) (now : Nat) : OpResult :=
  match status with
  | none => opErr db 400 "Please provide order status"
  | some st =>
    if !(validStatuses.contains st) then opErr db 400 "Invalid order status"
    else
      match findOne (fun o => o._id == orderId) db with
      | none => opErr db 404 "Order not found"
      | some order =>
        let updated := { order with
          status := st
          deliveredAt := if st == OrderStatus.delivered then some now else order.deliveredAt
          refundStatus :=
            if st == OrderStatus.cancelled && order.isPaid then some RefundStatus.pending
            else order.refundStatus }
        ⟨saveOrder updated db,
         [{ user := order.user, ntype := "order_" ++ statusName st, order := some order._id }],
         Except.ok updated⟩

/-- `order.controller.js` `cancelOrder`: owner-or-admin guard, then rejects
a `delivered` or already-`cancelled` order before cancelling.  `adminIds`
models `User.find({ role: 'admin' })` for the admin broadcast.  The source
also assigns `cancellationReason := reason || 'No reason provided'` and
`cancelledAt := Date.now()`, but neither is a schema path of
`order.model.js`, so strict mode strips both on save and they are not part
of the persisted update. -/
def cancelOrder (u : ReqUser) (adminIds : List String) (orderId : String)
    (_reason : Option String) (db : List Order) (_now : Nat) : OpResult :=
  match findOne (fun o => o._id == orderId) db with
  | none => opErr db 404 "Order not found"
  | some order =>
    if order.user != u.id && u.role != "admin" then
      opErr db 403 "Not authorized to cancel this order"
    else if order.status == OrderStatus.delivered then
      opErr db 400 "Cannot cancel a delivered order"
    else if order.status == OrderStatus.cancelled then
      opErr db 400 "Order is already cancelled"
    else
      let updated := { order with
        status := OrderStatus.cancelled
        refundStatus :=
          if order.isPaid then some RefundStatus.pending else order.refundStatus }
      ⟨saveOrder updated db,
       { user := order.user, ntype := "order_cancelled", order := some order._id }
         :: adminIds.map (fun a =>
              { user := a, ntype := "order_cancelled", order := some order._id,
                message := some ("Order " ++ order.orderNumber
                                  ++ " has been cancelled by "
                                  ++ (if u.role == "admin" then "admin" else "customer")
                                  ++ ".") }),
       Except.ok updated⟩

/-- `order.controller.js` `processRefund` (the admin manual refund): only a
cancelled, paid order without a completed refund may be refunded; no
gateway call is made.  The source also assigns
`refundDetails.method/transactionId/notes` from the request body, but none
of these is a schema path, so strict mode strips them and only
`amount/processedAt/processedBy` persist. -/
def processRefund (u : ReqUser) (orderId : String) (refundAmount : Option ℚ)
    (_refundMethod : Option String) (_transactionId : Option String)
    (_notes : Option String) (db : List Order) (now : Nat) : OpResult :=
  match findOne (fun o => o._id == orderId) db with
  | none => opErr db 404 "Order not found"
  | some order =>
    if order.status != OrderStatus.cancelled then
      opErr db 400 "Only cancelled orders can be refunded"
    else if !order.isPaid then
      opErr db 400 "Order was not paid, no refund needed"
    else if order.refundStatus == some RefundStatus.completed then
      opErr db 400 "Refund has already been processed"
    else
      let updated := { order with
        refundStatus := some RefundStatus.completed
        refundDetails := some
          { amount := if truthyQ refundAmount then refundAmount.getD 0 else order.totalPrice
            processedAt := now
            processedBy := some u.id } }
      ⟨saveOrder updated db,
       [{ user := order.user, ntype := "refund_processed", order := some order._id,
          message := some ("Refund for order " ++ order.orderNumber
                            ++ " has been processed.") }],
       Except.ok updated⟩

/-- `order.controller.js` `markCodOrderAsPaid`: only an unpaid COD order
may be marked paid; on success `paymentResult.id` is the literal `'COD'`
(the source's `paymentResult.method := 'cod'` is not a schema path and is
stripped by strict mode). -/
def markCodOrderAsPaid (orderId : String) (db : List Order) (now : Nat) : OpResult :=
  match findOne (fun o => o._id == orderId) db with
  | none => opErr db 404 "Order not found"
  | some order =>
    if order.paymentMethod != "cod" then
      opErr db 400 "Order is not a COD order"
    else if order.isPaid then
      opErr db 400 "Order is already marked as paid"
    else
      let updated := { order with
        isPaid := true
        paidAt := some now
        paymentResult := some
          { id := "COD"
            status := "paid"
            update_time := now
            email_address := "" } }
      ⟨saveOrder updated db,
       [{ user := order.user, ntype := "payment_successful", order := some order._id }],
       Except.ok updated⟩

end OrderController

/-! ### Shared lemmas -/

/-- If an order was found by id, then after saving an update carrying the
same `_id`, the same lookup finds the updated order. -/
theorem findOne_id_saveOrder (db : List Order) (o u : Order) (oid : String)
    (h : findOne (fun x => x._id == oid) db = some o) (hid : u._id = o._id) :
    findOne (fun x => x._id == oid) (saveOrder u db) = some u := by
  have hoid : o._id = oid := by
    have := List.find?_some h
    simpa using this
  induction db with
  | nil => simp [findOne] at h
  | cons a tl ih =>
    unfold findOne at h
    unfold findOne saveOrder
    by_cases ha : a._id = oid
    · rw [List.find?_cons_of_pos _ (by simpa using ha)] at h
      have hao : a = o := by simpa using h
      have : a._id == u._id := by simp [hid, hao]
      simp only [List.map_cons, if_pos this]
      exact List.find?_cons_of_pos _ (by simp [hid, hao, hoid])
    · rw [List.find?_cons_of_neg _ (by simpa using ha)] at h
      have hau : ¬(a._id == u._id) = true := by
        simp only [beq_iff_eq, hid, hoid]
        exact ha
      simp only [List.map_cons, if_neg hau]
      rw [List.find?_cons_of_neg _ (by simpa using ha)]
      exact ih h

/-! ### Concrete fixtures used by witnesses and counterexamples -/

/-- A concrete stand-in for HMAC-SHA256 in closed witnesses. -/
def hmac0 (key msg : String) : String := key ++ ":" ++ msg

/-- A concrete stand-in for `JSON.stringify` in closed witnesses. -/
def stringify0 (e : WebhookEvent) : String := e.event

/-- The customer who owns the sample orders. -/
def sampleUser : ReqUser := { id := "u1", email := "u1@example.com", role := "customer" }

/-- An admin requester. -/
def adminUser : ReqUser := { id := "a1", email := "a1@example.com", role := "admin" }

/-- The payment result of an order paid through Razorpay. -/
def paidPR : PaymentResult :=
  { id := "pay_1", status := "captured", update_time := 100,
    email_address := "u1@example.com", razorpay_order_id := some "rzo_1",
    razorpay_payment_id := some "pay_1" }

/-- A paid, processing order bound to Razorpay order `rzo_1`. -/
def paidOrder : Order :=
  { _id := "o1", user := "u1", orderNumber := "YT-20250101-0001",
    paymentMethod := "razorpay", paymentResult := some paidPR,
    totalPrice := 70997 / 100, isPaid := true, paidAt := some 100,
    status := OrderStatus.processing, razorpayOrderId := some "rzo_1" }

/-- An unpaid pending order bound to Razorpay order `rzo_1`. -/
def pendingOrder : Order :=
  { _id := "o1", user := "u1", orderNumber := "YT-20250101-0001",
    paymentMethod := "razorpay", totalPrice := 70997 / 100,
    status := OrderStatus.pending, razorpayOrderId := some "rzo_1" }

/-- A gateway client whose `payments.fetch` always reports `captured`. -/
def fetchCaptured : String → Option RzpPayment :=
  fun pid => some { id := pid, status := "captured", order_id := "rzo_1", amount := 70997 }

/-- A verify request identifying the order directly by `orderId`. -/
def verifyBody1 : VerifyBody :=
  { razorpay_payment_id := some "pay_1", orderId := some "o1" }

/-! ### Claim C9 -/

/-- C9: for every monetary amount representable with exactly two decimal
places (`n` paise, i.e. `n / 100` rupees), converting it to minor units
with `formatAmountForRazorpay` (multiply by 100, round to nearest) and back
with `formatAmountFromRazorpay` (divide by 100) reproduces the original
amount exactly. -/
theorem money_roundtrip_two_decimals (n : ℤ) :
    formatAmountFromRazorpay (formatAmountForRazorpay ((n : ℚ) / 100)) = (n : ℚ) / 100 := by
  unfold formatAmountFromRazorpay formatAmountForRazorpay mathRound
  have h1 : (n : ℚ) / 100 * 100 + 1 / 2 = (n : ℚ) + 1 / 2 := by
    field_simp
  rw [h1]
  have h2 : ⌊(n : ℚ) + 1 / 2⌋ = n := by
    rw [Int.floor_eq_iff]
    constructor
    · linarith
    · linarith
  rw [h2]

/-- C9 at the spec's example: 709.97 rupees → 70997 paise → 709.97 rupees. -/
theorem money_roundtrip_example :
    formatAmountForRazorpay (70997 / 100) = 70997 ∧
    formatAmountFromRazorpay 70997 = 70997 / 100 := by
  constructor
  · unfold formatAmountForRazorpay mathRound
    norm_num
  · unfold formatAmountFromRazorpay
    norm_num

/-! ### Claim C2 -/

/-- C2: a webhook request whose (non-empty) signature header differs from
`HMAC-SHA256(webhookSecret, stringify(body))` is rejected with a 400
response before the event is dispatched: the store is returned unchanged
and no notification is sent, for every event body. -/
theorem webhook_signature_mismatch_rejected (hmac : String → String → String)
    (stringify : WebhookEvent → String) (secret sig : String)
    (event : WebhookEvent) (db : List Order) (now : Nat)
    (hsecret : secret ≠ "") (hsig : sig ≠ "")
    (hne : sig ≠ hmac secret (stringify event)) :
    WebhookController.handleRazorpayWebhook hmac stringify (some secret) (some sig)
        event db now
      = ⟨db, [], Except.error (Err.api 400 "Invalid webhook signature")⟩ := by
  unfold WebhookController.handleRazorpayWebhook
  simp [truthy, hsecret, hsig, hne]

/-- C2 witness: a concrete mismatching signature on a concrete
`payment.captured` event is rejected and the store with one paid order is
untouched. -/
theorem webhook_signature_mismatch_rejected_witness :
    ("sec" ≠ "" ∧ "bad" ≠ "" ∧
      "bad" ≠ hmac0 "sec" (stringify0 { event := "payment.captured" })) ∧
    WebhookController.handleRazorpayWebhook hmac0 stringify0 (some "sec") (some "bad")
        { event := "payment.captured" } [paidOrder] 0
      = ⟨[paidOrder], [], Except.error (Err.api 400 "Invalid webhook signature")⟩ :=
  ⟨⟨by decide, by decide, by decide⟩,
   webhook_signature_mismatch_rejected hmac0 stringify0 "sec" "bad"
     { event := "payment.captured" } [paidOrder] 0
     (by decide) (by decide) (by decide)⟩

/-! ### Claim C5 -/

/-- C5: a webhook `payment.captured` event that resolves to an order that
is already paid is a no-op: the store is returned unchanged (so every field
of the order, including `isPaid`, `paidAt`, `paymentResult`, `status` and
`refundStatus`, is unchanged) and no notification is sent. -/
theorem webhook_captured_already_paid_noop (payment : RzpPayment)
    (db : List Order) (now : Nat) (o : Order)
    (hfind : findOne (fun x => x.razorpayOrderId == some payment.order_id) db = some o)
    (hpaid : o.isPaid = true) :
    WebhookController.handlePaymentCaptured payment db now = (db, []) := by
  unfold WebhookController.handlePaymentCaptured
  rw [hfind]
  simp [hpaid]

/-- C5 witness: a captured event for `rzo_1` hitting the already-paid
sample order leaves the store unchanged and notifies nobody. -/
theorem webhook_captured_already_paid_noop_witness :
    (findOne (fun x => x.razorpayOrderId == some "rzo_1") [paidOrder] = some paidOrder ∧
      paidOrder.isPaid = true) ∧
    WebhookController.handlePaymentCaptured
        { id := "pay_1", status := "captured", order_id := "rzo_1", amount := 70997 }
        [paidOrder] 500
      = ([paidOrder], []) :=
  ⟨⟨rfl, rfl⟩,
   webhook_captured_already_paid_noop
     { id := "pay_1", status := "captured", order_id := "rzo_1", amount := 70997 }
     [paidOrder] 500 paidOrder rfl rfl⟩

/-- A failed Razorpay payment entity for `rzo_1`. -/
def failedPayment : RzpPayment :=
  { id := "pay_9", status := "failed", order_id := "rzo_1", amount := 70997,
    error_code := some "BAD_REQUEST_ERROR",
    error_description := some "Payment failed" }

/-- An unpaid cash-on-delivery order. -/
def codOrder : Order :=
  { _id := "o2", user := "u1", orderNumber := "YT-20250101-0002",
    paymentMethod := "cod", totalPrice := 500,
    status := OrderStatus.pending }

/-- The order update persisted by `markCodOrderAsPaid` on success
(lines 1133–1141 of `order.controller.js`).  The source also assigns
`paymentResult.method := 'cod'`, which is not a schema path and is stripped
by strict mode, so it is not modelled. -/
def codPaidUpdate (o : Order) (now : Nat) : Order :=
  { o with
    isPaid := true
    paidAt := some now
    paymentResult := some
      { id := "COD"
        status := "paid"
        update_time := now
        email_address := "" } }

/-- The COD order after `markCodOrderAsPaid` succeeds at time 700. -/
def codOrderPaid : Order :=
  codPaidUpdate codOrder 700

/-! ### Claim C8 -/

/-- C8: evaluation of the `payment.failed` webhook path at the failing
input.  The handler cancels the never-confirmed order (`status` becomes
`cancelled`, `isPaid` stays `false`, `paidAt` stays unset) and notifies the
user, but the claimed recording of the failure reason never happens: the
gateway event carries `error_code`/`error_description` and the controller
assigns them into `paymentResult` (lines 134–135 of
`webhook.controller.js`), yet the strict `paymentResult` schema of
`order.model.js` has no such paths, so Mongoose strips them on save — the
persisted `paymentResult` holds only the six schema fields, with no failure
reason beyond the raw gateway status string. -/
theorem webhook_failed_drops_failure_reason :
    failedPayment.error_code = some "BAD_REQUEST_ERROR" ∧
    failedPayment.error_description = some "Payment failed" ∧
    pendingOrder.isPaid = false ∧ pendingOrder.paidAt = none ∧
    WebhookController.handlePaymentFailed failedPayment [pendingOrder] 300
      = (saveOrder (WebhookController.paymentFailedUpdate failedPayment pendingOrder 300)
           [pendingOrder],
         [{ user := "u1", ntype := "payment_failed", order := some "o1",
            message := some "Payment for order YT-20250101-0001 failed. Please try again." }]) ∧
    (WebhookController.paymentFailedUpdate failedPayment pendingOrder 300).status
      = OrderStatus.cancelled ∧
    (WebhookController.paymentFailedUpdate failedPayment pendingOrder 300).isPaid = false ∧
    (WebhookController.paymentFailedUpdate failedPayment pendingOrder 300).paidAt = none ∧
    (WebhookController.paymentFailedUpdate failedPayment pendingOrder 300).paymentResult
      = some { id := "pay_9", status := "failed", update_time := 300,
               email_address := "", razorpay_order_id := some "rzo_1",
               razorpay_payment_id := some "pay_9" } :=
  ⟨rfl, rfl, rfl, rfl, rfl, rfl, rfl, rfl, rfl⟩

/-! ### Claim C10 -/

/-- C10: `markCodOrderAsPaid` has an effect at most once per order: it is
rejected with the store unchanged when the order's payment method is not
`cod` or the order is already paid; on success for an unpaid COD order it
sets `isPaid`, `paidAt` and a `paymentResult` whose id is the literal
`'COD'`, after which repeating the call on the updated store is rejected. -/
theorem markCodOrderAsPaid_at_most_once (oid : String) (db : List Order)
    (now now2 : Nat) (o : Order)
    (hfind : findOne (fun x => x._id == oid) db = some o) :
    (o.paymentMethod ≠ "cod" →
      OrderController.markCodOrderAsPaid oid db now
        = opErr db 400 "Order is not a COD order") ∧
    (o.paymentMethod = "cod" → o.isPaid = true →
      OrderController.markCodOrderAsPaid oid db now
        = opErr db 400 "Order is already marked as paid") ∧
    (o.paymentMethod = "cod" → o.isPaid = false →
      OrderController.markCodOrderAsPaid oid db now
        = ⟨saveOrder (codPaidUpdate o now) db,
           [{ user := o.user, ntype := "payment_successful", order := some o._id }],
           Except.ok (codPaidUpdate o now)⟩ ∧
      OrderController.markCodOrderAsPaid oid (saveOrder (codPaidUpdate o now) db) now2
        = opErr (saveOrder (codPaidUpdate o now) db)
            400 "Order is already marked as paid") := by
  refine ⟨?_, ?_, ?_⟩
  · intro hpm
    unfold OrderController.markCodOrderAsPaid
    rw [hfind]
    simp [hpm]
  · intro hpm hpaid
    unfold OrderController.markCodOrderAsPaid
    rw [hfind]
    simp [hpm, hpaid]
  · intro hpm hunpaid
    constructor
    · unfold OrderController.markCodOrderAsPaid
      rw [hfind]
      simp [hpm, hunpaid, codPaidUpdate]
    · have hfind2 := findOne_id_saveOrder db o (codPaidUpdate o now) oid hfind rfl
      unfold OrderController.markCodOrderAsPaid
      rw [hfind2]
      simp [hpm, codPaidUpdate]

/-- C10 witness: the concrete unpaid COD order is marked paid once, and the
repeated call on the updated store is rejected. -/
theorem markCodOrderAsPaid_at_most_once_witness :
    (findOne (fun x => x._id == "o2") [codOrder] = some codOrder
      ∧ codOrder.paymentMethod = "cod" ∧ codOrder.isPaid = false) ∧
    OrderController.markCodOrderAsPaid "o2"
        (saveOrder (codPaidUpdate codOrder 700) [codOrder]) 800
      = opErr (saveOrder (codPaidUpdate codOrder 700) [codOrder])
          400 "Order is already marked as paid" :=
  ⟨⟨rfl, rfl, rfl⟩,
   ((markCodOrderAsPaid_at_most_once "o2" [codOrder] 700 800 codOrder rfl).2.2
      rfl rfl).2⟩

/-! ### Claim C1 -/

/-- The payment entity `fetchCaptured` returns for `pay_1`. -/
def capturedPay1 : RzpPayment :=
  { id := "pay_1", status := "captured", order_id := "rzo_1", amount := 70997 }

/-- C1 counterexample: calling `verifyPayment` for the already-paid sample
order (paid at 100, gateway still reporting `captured` for the same payment
id `pay_1`) does NOT return the existing order unchanged: it succeeds,
resets `paidAt` to the new current time 200, and sends a second
`payment_successful` notification. -/
theorem verifyPayment_repeat_counterexample :
    paidOrder.isPaid = true ∧ paidOrder.paidAt = some 100 ∧
    (PaymentController.verifyPayment hmac0 "sec" fetchCaptured sampleUser
        verifyBody1 [paidOrder] 200).notifications
      = [{ user := "u1", ntype := "payment_successful", order := some "o1" }] ∧
    ((PaymentController.verifyPayment hmac0 "sec" fetchCaptured sampleUser
        verifyBody1 [paidOrder] 200).response.toOption.map Order.paidAt)
      = some (some 200) :=
  ⟨rfl, rfl, rfl, rfl⟩

/-- C1 (amended): `verifyPayment` performs no already-paid guard, so a
second call for an already-paid order with the same gateway payment id is
not a no-op: whenever the call otherwise succeeds (order resolved, owned by
the requester, signature check passed or skipped, gateway reports
`captured`) it re-applies the payment update — `paidAt` is overwritten with
the new current time and a second `payment_successful` notification is
dispatched. -/
theorem verifyPayment_repeat_not_idempotent
    (hmac : String → String → String) (keySecret : String)
    (paymentsFetch : String → Option RzpPayment) (u : ReqUser)
    (body : VerifyBody) (db : List Order) (now : Nat)
    (pid oid : String) (o : Order) (payment : RzpPayment)
    (hpid : body.razorpay_payment_id = some pid) (hpidne : pid ≠ "")
    (hoid : body.orderId = some oid) (hoidne : oid ≠ "")
    (hfind : findOne (fun x => x._id == oid) db = some o)
    (hown : o.user = u.id)
    (hsig : body.razorpay_order_id = none ∨ body.razorpay_signature = none ∨
      hmac keySecret (body.razorpay_order_id.getD "" ++ "|" ++ pid)
        = body.razorpay_signature.getD "")
    (hfetch : paymentsFetch pid = some payment)
    (hcap : payment.status = "captured")
    (_hpaid : o.isPaid = true) :
    PaymentController.verifyPayment hmac keySecret paymentsFetch u body db now
      = ⟨saveOrder (PaymentController.verifySuccessUpdate u body pid payment o now) db,
         [{ user := o.user, ntype := "payment_successful", order := some o._id }],
         Except.ok (PaymentController.verifySuccessUpdate u body pid payment o now)⟩ ∧
    (PaymentController.verifySuccessUpdate u body pid payment o now).paidAt
      = some now := by
  constructor
  · unfold PaymentController.verifyPayment
    rcases hsig with h | h | h <;>
      simp [truthy, hpid, hpidne, hoid, hoidne, hfind, hown, h, hfetch, hcap]
  · rfl

/-- C1 witness: the amended behaviour at the concrete already-paid order. -/
theorem verifyPayment_repeat_not_idempotent_witness :
    (verifyBody1.razorpay_payment_id = some "pay_1" ∧
      verifyBody1.orderId = some "o1" ∧
      findOne (fun x => x._id == "o1") [paidOrder] = some paidOrder ∧
      paidOrder.user = sampleUser.id ∧
      verifyBody1.razorpay_order_id = none ∧
      fetchCaptured "pay_1" = some capturedPay1 ∧
      capturedPay1.status = "captured" ∧ paidOrder.isPaid = true) ∧
    (PaymentController.verifySuccessUpdate sampleUser verifyBody1 "pay_1"
        capturedPay1 paidOrder 200).paidAt = some 200 :=
  ⟨⟨rfl, rfl, rfl, rfl, rfl, rfl, rfl, rfl⟩,
   (verifyPayment_repeat_not_idempotent hmac0 "sec" fetchCaptured sampleUser
      verifyBody1 [paidOrder] 200 "pay_1" "o1" paidOrder capturedPay1
      rfl (by decide) rfl (by decide) rfl rfl (Or.inl rfl) rfl rfl rfl).2⟩

/-! ### Claim C3 -/

/-- An unpaid order that already advanced to `shipped`. -/
def shippedOrder : Order :=
  { pendingOrder with status := OrderStatus.shipped }

/-- C3 counterexample: a successful `verifyPayment` on an unpaid order
whose status is `shipped` (not `pending`) does not keep that status — the
controller assigns `status = 'processing'` unconditionally. -/
theorem verifyPayment_overwrites_status_counterexample :
    shippedOrder.isPaid = false ∧ shippedOrder.status = OrderStatus.shipped ∧
    ((PaymentController.verifyPayment hmac0 "sec" fetchCaptured sampleUser
        verifyBody1 [shippedOrder] 200).response.toOption.map Order.status)
      = some OrderStatus.processing :=
  ⟨rfl, rfl, rfl⟩

/-- C3 (amended): for every unpaid order, `verifyPayment` requires the
gateway-fetched payment status to equal `captured` (otherwise it rejects
with "Payment not captured" and the store is unchanged); on success it sets
`isPaid = true`, `paidAt = now`, records a `paymentResult` with the gateway
payment id, the gateway order id and `captured` status, sets `status` to
`processing` unconditionally (regardless of the previous status, not only
from `pending`), and notifies the user once. -/
theorem verifyPayment_success_path
    (hmac : String → String → String) (keySecret : String)
    (paymentsFetch : String → Option RzpPayment) (u : ReqUser)
    (body : VerifyBody) (db : List Order) (now : Nat)
    (pid oid : String) (o : Order)
    (hpid : body.razorpay_payment_id = some pid) (hpidne : pid ≠ "")
    (hoid : body.orderId = some oid) (hoidne : oid ≠ "")
    (hfind : findOne (fun x => x._id == oid) db = some o)
    (hown : o.user = u.id)
    (hsig : body.razorpay_order_id = none ∨ body.razorpay_signature = none ∨
      hmac keySecret (body.razorpay_order_id.getD "" ++ "|" ++ pid)
        = body.razorpay_signature.getD "")
    (_hunpaid : o.isPaid = false) :
    (∀ payment, paymentsFetch pid = some payment → payment.status ≠ "captured" →
      PaymentController.verifyPayment hmac keySecret paymentsFetch u body db now
        = opErr db 400 "Payment not captured") ∧
    (∀ payment, paymentsFetch pid = some payment → payment.status = "captured" →
      PaymentController.verifyPayment hmac keySecret paymentsFetch u body db now
        = ⟨saveOrder (PaymentController.verifySuccessUpdate u body pid payment o now) db,
           [{ user := o.user, ntype := "payment_successful", order := some o._id }],
           Except.ok (PaymentController.verifySuccessUpdate u body pid payment o now)⟩ ∧
      (PaymentController.verifySuccessUpdate u body pid payment o now).isPaid = true ∧
      (PaymentController.verifySuccessUpdate u body pid payment o now).paidAt = some now ∧
      (PaymentController.verifySuccessUpdate u body pid payment o now).status
        = OrderStatus.processing ∧
      ((PaymentController.verifySuccessUpdate u body pid payment o now).paymentResult.map
          PaymentResult.id) = some pid ∧
      ((PaymentController.verifySuccessUpdate u body pid payment o now).paymentResult.map
          PaymentResult.status) = some "captured" ∧
      ((PaymentController.verifySuccessUpdate u body pid payment o now).paymentResult.bind
          PaymentResult.razorpay_payment_id) = some pid ∧
      ((PaymentController.verifySuccessUpdate u body pid payment o now).paymentResult.bind
          PaymentResult.razorpay_order_id)
        = some (if truthy body.razorpay_order_id then body.razorpay_order_id.getD ""
                else payment.order_id)) := by
  constructor
  · intro payment hfetch hcap
    unfold PaymentController.verifyPayment
    rcases hsig with h | h | h <;>
      simp [truthy, hpid, hpidne, hoid, hoidne, hfind, hown, h, hfetch, hcap, opErr]
  · intro payment hfetch hcap
    refine ⟨?_, rfl, rfl, rfl, rfl, rfl, rfl, rfl⟩
    unfold PaymentController.verifyPayment
    rcases hsig with h | h | h <;>
      simp [truthy, hpid, hpidne, hoid, hoidne, hfind, hown, h, hfetch, hcap]

/-- C3 witness: the amended success path at the concrete shipped order. -/
theorem verifyPayment_success_path_witness :
    (verifyBody1.razorpay_payment_id = some "pay_1" ∧
      verifyBody1.orderId = some "o1" ∧
      findOne (fun x => x._id == "o1") [shippedOrder] = some shippedOrder ∧
      shippedOrder.user = sampleUser.id ∧
      verifyBody1.razorpay_order_id = none ∧
      shippedOrder.isPaid = false ∧
      fetchCaptured "pay_1" = some capturedPay1 ∧
      capturedPay1.status = "captured") ∧
    (PaymentController.verifySuccessUpdate sampleUser verifyBody1 "pay_1"
        capturedPay1 shippedOrder 200).status = OrderStatus.processing :=
  ⟨⟨rfl, rfl, rfl, rfl, rfl, rfl, rfl, rfl⟩,
   (((verifyPayment_success_path hmac0 "sec" fetchCaptured sampleUser
        verifyBody1 [shippedOrder] 200 "pay_1" "o1" shippedOrder
        rfl (by decide) rfl (by decide) rfl rfl (Or.inl rfl) rfl).2
      capturedPay1 rfl rfl).2.2.2.1)⟩

/-! ### Claim C4 -/

/-- A gateway client whose `orders.create` mints `rzo_new`. -/
def ordersCreate0 : ℤ → String → Option String := fun _ _ => some "rzo_new"

/-- C4 counterexample: the unpaid, non-cancelled sample order is already
bound to gateway order id `rzo_1`, yet a second `createRazorpayOrder` call
is not rejected — it succeeds and rebinds the order to the newly minted id
`rzo_new`. -/
theorem createRazorpayOrder_rebind_counterexample :
    pendingOrder.razorpayOrderId = some "rzo_1" ∧
    pendingOrder.isPaid = false ∧
    pendingOrder.status ≠ OrderStatus.cancelled ∧
    ((PaymentController.createRazorpayOrder ordersCreate0 sampleUser (some "o1")
        [pendingOrder]).response.toOption.map Order.razorpayOrderId)
      = some (some "rzo_new") :=
  ⟨rfl, rfl, by decide, rfl⟩

/-- C4 (amended): `createRazorpayOrder` never checks whether a gateway
order id is already bound (and tracks no intent expiry): for every unpaid,
non-cancelled order owned by the requester — including one already bound to
a previous gateway order id — the call succeeds and overwrites
`razorpayOrderId` with the newly minted id; only a paid or cancelled order
is rejected. -/
theorem createRazorpayOrder_rebinds
    (ordersCreate : ℤ → String → Option String) (u : ReqUser)
    (oid : String) (db : List Order) (o : Order) (newId prevId : String)
    (hoidne : oid ≠ "")
    (hfind : findOne (fun x => x._id == oid) db = some o)
    (hown : o.user = u.id)
    (hunpaid : o.isPaid = false)
    (hnc : o.status ≠ OrderStatus.cancelled)
    (_hbound : o.razorpayOrderId = some prevId)
    (hmint : ordersCreate (formatAmountForRazorpay o.totalPrice) o.orderNumber
      = some newId) :
    PaymentController.createRazorpayOrder ordersCreate u (some oid) db
      = ⟨saveOrder { o with razorpayOrderId := some newId } db, [],
         Except.ok { o with razorpayOrderId := some newId }⟩ := by
  unfold PaymentController.createRazorpayOrder
  simp [truthy, hoidne, hfind, hown, hunpaid, hnc, hmint]

/-- C4 witness: the amended behaviour at the concrete bound order. -/
theorem createRazorpayOrder_rebinds_witness :
    (findOne (fun x => x._id == "o1") [pendingOrder] = some pendingOrder ∧
      pendingOrder.user = sampleUser.id ∧
      pendingOrder.isPaid = false ∧
      pendingOrder.status ≠ OrderStatus.cancelled ∧
      pendingOrder.razorpayOrderId = some "rzo_1" ∧
      ordersCreate0 (formatAmountForRazorpay pendingOrder.totalPrice)
          pendingOrder.orderNumber = some "rzo_new") ∧
    PaymentController.createRazorpayOrder ordersCreate0 sampleUser (some "o1")
        [pendingOrder]
      = ⟨saveOrder { pendingOrder with razorpayOrderId := some "rzo_new" } [pendingOrder],
         [], Except.ok { pendingOrder with razorpayOrderId := some "rzo_new" }⟩ :=
  ⟨⟨rfl, rfl, rfl, by decide, rfl, rfl⟩,
   createRazorpayOrder_rebinds ordersCreate0 sampleUser "o1" [pendingOrder]
     pendingOrder "rzo_new" "rzo_1" (by decide) rfl rfl rfl (by decide) rfl rfl⟩

/-! ### Claim C6 -/

/-- A paid order that has been delivered. -/
def deliveredOrder : Order :=
  { paidOrder with status := OrderStatus.delivered, deliveredAt := some 150 }

/-- C6 counterexample: the admin status-transition entry point
(`updateOrderStatus`) accepts `cancelled` for an order already
`delivered` — no InvalidState rejection, the order's status becomes
`cancelled`. -/
theorem updateOrderStatus_cancels_delivered_counterexample :
    deliveredOrder.status = OrderStatus.delivered ∧
    ((OrderController.updateOrderStatus "o1" (some OrderStatus.cancelled)
        [deliveredOrder] 300).response.toOption.map Order.status)
      = some OrderStatus.cancelled ∧
    (OrderController.updateOrderStatus "o1" (some OrderStatus.cancelled)
        [deliveredOrder] 300).notifications
      = [{ user := "u1", ntype := "order_cancelled", order := some "o1" }] :=
  ⟨rfl, rfl, rfl⟩

/-- C6 (amended): only the dedicated cancel operation enforces the
InvalidState guards: `cancelOrder` rejects cancelling a `delivered` order
and re-cancelling a `cancelled` order, leaving the store unchanged; the
status-transition operation `updateOrderStatus`, however, performs no such
check and cancels even a `delivered` order. -/
theorem cancelOrder_guards_updateOrderStatus_does_not
    (u : ReqUser) (adminIds : List String) (oid : String)
    (reason : Option String) (db : List Order) (now : Nat) (o : Order)
    (hfind : findOne (fun x => x._id == oid) db = some o)
    (hauth : o.user = u.id ∨ u.role = "admin") :
    (o.status = OrderStatus.delivered →
      OrderController.cancelOrder u adminIds oid reason db now
        = opErr db 400 "Cannot cancel a delivered order") ∧
    (o.status = OrderStatus.cancelled →
      OrderController.cancelOrder u adminIds oid reason db now
        = opErr db 400 "Order is already cancelled") ∧
    (o.status = OrderStatus.delivered →
      (OrderController.updateOrderStatus oid (some OrderStatus.cancelled) db now).response
        = Except.ok { o with
            status := OrderStatus.cancelled
            refundStatus :=
              if o.isPaid then some RefundStatus.pending else o.refundStatus }) := by
  refine ⟨?_, ?_, ?_⟩
  · intro hst
    unfold OrderController.cancelOrder
    rw [hfind]
    rcases hauth with h | h <;> simp [h, hst]
  · intro hst
    unfold OrderController.cancelOrder
    rw [hfind]
    rcases hauth with h | h <;> simp [h, hst]
  · intro _hst
    unfold OrderController.updateOrderStatus
    rw [hfind]
    cases hip : o.isPaid <;>
      simp [OrderController.validStatuses, hip]

/-- C6 witness: the concrete delivered order is protected by `cancelOrder`
but cancelled by `updateOrderStatus`. -/
theorem cancelOrder_guards_witness :
    (findOne (fun x => x._id == "o1") [deliveredOrder] = some deliveredOrder ∧
      deliveredOrder.user = sampleUser.id ∧
      deliveredOrder.status = OrderStatus.delivered) ∧
    OrderController.cancelOrder sampleUser [] "o1" none [deliveredOrder] 300
      = opErr [deliveredOrder] 400 "Cannot cancel a delivered order" :=
  ⟨⟨rfl, rfl, rfl⟩,
   (cancelOrder_guards_updateOrderStatus_does_not sampleUser [] "o1" none
      [deliveredOrder] 300 deliveredOrder rfl (Or.inl rfl)).1 rfl⟩

/-! ### Claim C7 -/

/-- The cancelled, paid sample order whose refund already completed. -/
def refundedOrder : Order :=
  { paidOrder with
    status := OrderStatus.cancelled
    refundStatus := some RefundStatus.completed }

/-- A gateway whose `payments.refund` always succeeds. -/
def paymentsRefundOk : String → ℤ → Option RzpRefund :=
  fun _ amt => some { id := "rfnd_2", amount := amt, status := "processed" }

/-- C7 counterexample: the Razorpay-backed `processRefund` accepts an order
whose refund is already `completed` — the second refund is processed again
(success response and a second `refund_processed` notification), instead of
being rejected. -/
theorem processRefund_double_refund_counterexample :
    refundedOrder.isPaid = true ∧
    refundedOrder.refundStatus = some RefundStatus.completed ∧
    (refundedOrder.paymentResult.bind PaymentResult.razorpay_payment_id)
      = some "pay_1" ∧
    ((PaymentController.processRefund paymentsRefundOk adminUser (some "o1")
        none none [refundedOrder] 400).response.toOption.map Order.refundStatus)
      = some (some RefundStatus.completed) ∧
    (PaymentController.processRefund paymentsRefundOk adminUser (some "o1")
        none none [refundedOrder] 400).notifications
      = [{ user := "u1", ntype := "refund_processed", order := some "o1" }] :=
  ⟨rfl, rfl, rfl, rfl, rfl⟩

/-- C7 (amended): the Razorpay-backed `processRefund` rejects an unpaid
order and an order carrying no gateway payment id, and the admin
`processRefund` rejects an order whose refund is already completed; but the
Razorpay-backed entry point performs no completed-refund check, so a second
refund through it succeeds after the first completes, and the admin entry
point does not require a gateway payment id. -/
theorem processRefund_guards
    (paymentsRefund : String → ℤ → Option RzpRefund) (u : ReqUser)
    (oid : String) (refundAmount : Option ℚ) (reason : Option String)
    (refundMethod transactionId notes : Option String)
    (db : List Order) (now : Nat) (o : Order)
    (hoidne : oid ≠ "")
    (hfind : findOne (fun x => x._id == oid) db = some o) :
    (o.isPaid = false →
      PaymentController.processRefund paymentsRefund u (some oid) refundAmount
          reason db now
        = opErr db 400 "Order is not paid") ∧
    (o.isPaid = true →
      truthy (o.paymentResult.bind PaymentResult.razorpay_payment_id) = false →
      PaymentController.processRefund paymentsRefund u (some oid) refundAmount
          reason db now
        = opErr db 400 "Order does not have Razorpay payment") ∧
    (o.status = OrderStatus.cancelled → o.isPaid = true →
      o.refundStatus = some RefundStatus.completed →
      OrderController.processRefund u oid refundAmount refundMethod transactionId
          notes db now
        = opErr db 400 "Refund has already been processed") ∧
    (∀ pid refund, o.isPaid = true →
      o.paymentResult.bind PaymentResult.razorpay_payment_id = some pid →
      pid ≠ "" →
      o.refundStatus = some RefundStatus.completed →
      (∀ amt, paymentsRefund pid amt = some refund) →
      ∃ saved, (PaymentController.processRefund paymentsRefund u (some oid)
          refundAmount reason db now).response = Except.ok saved ∧
        saved.refundStatus = some RefundStatus.completed) := by
  refine ⟨?_, ?_, ?_, ?_⟩
  · intro hp
    unfold PaymentController.processRefund
    simp [truthy, hoidne, hfind, hp]
  · intro hp hnopid
    unfold PaymentController.processRefund
    simp [truthy, hoidne, hfind, hp] at hnopid ⊢
    simp [hnopid]
  · intro hst hp hrs
    unfold OrderController.processRefund
    rw [hfind]
    simp [hst, hp, hrs]
  · intro pid refund hp hpid hpidne _hrs hrefund
    unfold PaymentController.processRefund
    simp [truthy, hoidne, hfind, hp, hpid, hpidne, hrefund]

/-- C7 witness: at the concrete already-refunded order, the admin entry
point rejects the second refund while the Razorpay-backed entry point
accepts it. -/
theorem processRefund_guards_witness :
    (findOne (fun x => x._id == "o1") [refundedOrder] = some refundedOrder ∧
      refundedOrder.status = OrderStatus.cancelled ∧
      refundedOrder.isPaid = true ∧
      refundedOrder.refundStatus = some RefundStatus.completed) ∧
    OrderController.processRefund adminUser "o1" none none none none
        [refundedOrder] 400
      = opErr [refundedOrder] 400 "Refund has already been processed" :=
  ⟨⟨rfl, rfl, rfl, rfl⟩,
   (processRefund_guards paymentsRefundOk adminUser "o1" none none none none
      none [refundedOrder] 400 refundedOrder (by decide) rfl).2.2.1 rfl rfl rfl⟩
